import Mathlib

/-!
# Verification of the batch geocoding engine of `app.py`

This development shallowly embeds the geocoding core of the repository's
single source file `app.py` (a Streamlit application that geocodes CNPJ
address records for the Espírito Santo region) and proves or refutes the
frozen specification claims about it.

Embedded functions (source names in parentheses):

* `getCacheKey` (`get_cache_key`, lines 467-469): the source hashes the
  lowercased address with MD5 and uses the hex digest as key.  The digest is
  modelled as the lowercased string itself, i.e. MD5 is treated as injective;
  only equality of keys is ever used by the source.
* `geocodeWithRetry` (`geocode_with_retry`, lines 480-540): retry/backoff
  controller over an ordered provider list, with cache lookup, bounding-box
  validation and cache write-through.  Provider behaviour is modelled by a
  function from the attempt number to an `AttemptOutcome`, covering the four
  ways `custom_geocode` can come back: a location, no location (`None`), a
  retryable geopy error (`GeocoderTimedOut`/`GeocoderServiceError`/
  `GeocoderUnavailable`), or any other exception.  Coordinates are modelled
  as rationals: the source only passes them through and compares them with
  `<=`, so exact ordered arithmetic is a faithful model.  The function also
  returns a `CallLog` recording every provider call and every backoff sleep,
  so that "zero provider calls / zero delays" claims are statable.
* `geocodeCepRobust` (`geocode_cep_robust`, lines 546-567): CEP (postal
  code) fallback strategy.  Its input is `Option String`, `none` standing
  for a `NaN`/`None` pandas cell (`pd.isna`).  Its internal `try/except`
  never fires in the embedded fragment (nothing embedded raises), so the
  `"Erro"` branch is not modelled.
-/

/-- Outcome of one `custom_geocode` call (one attempt of one provider) as
observed by `geocode_with_retry`: a location object with coordinates, a
falsy location (`None`), one of the three retryable geopy errors caught at
line 529, or any other exception caught at line 534. -/
inductive AttemptOutcome where
  | found (lat lon : ℚ)
  | notFound
  | geoErr
  | otherErr
deriving DecidableEq

/-- One configured provider: its name and its behaviour, as a function from
the 0-based attempt number to the outcome of that attempt. -/
structure Geocoder where
  name : String
  behavior : Nat → AttemptOutcome

/-- Value stored in `GEOCODING_CACHE` under a key.  The source stores the
4-tuple `(lat, lon, geocoder_name, "Sucesso")` and reads components
`[0]`, `[1]`, `[2]`; the constant fourth component is not modelled. -/
structure CacheEntry where
  lat : ℚ
  lon : ℚ
  provider : String
deriving DecidableEq

/-- The in-memory geocoding cache `GEOCODING_CACHE`, as an association list
from keys to entries (most recent binding first, as for a `dict` update). -/
def Cache := List (String × CacheEntry)

/-- Lookup in the cache (`cache_key in GEOCODING_CACHE` / indexing). -/
def cacheLookup : Cache → String → Option CacheEntry
  | [], _ => none
  | (k, e) :: rest, key => if k = key then some e else cacheLookup rest key

/-- Lowercasing of a string (`str.lower()`), written on the character list
so that it reduces in the kernel. -/
def lowerStr (s : String) : String := ⟨s.data.map Char.toLower⟩

/-- Key of an address in the cache (`get_cache_key`): the source computes
`hashlib.md5(address.lower().encode()).hexdigest()`; the MD5 digest is
modelled by the lowercased address itself. -/
def getCacheKey (address : String) : String := lowerStr address

/-- Result 4-tuple `(latitude, longitude, method, status)` returned by
`geocode_with_retry`, `geocode_address_robust` and `geocode_cep_robust`. -/
structure RetryResult where
  lat : Option ℚ
  lon : Option ℚ
  method : String
  status : String
deriving DecidableEq

/-- Trace of the observable effects of one resolution: every provider call
made (provider name, attempt number, in order) and every backoff sleep
performed (the slept `2 ^ attempt` durations, in order). -/
structure CallLog where
  attempts : List (String × Nat)
  sleeps : List Nat
deriving DecidableEq

/-- The empty call log. -/
def CallLog.nil : CallLog := ⟨[], []⟩

/-- Bounding-box validation at line 514 of `app.py`:
`-22.0 <= lat <= -17.0 and -42.0 <= lon <= -38.0` (Espírito Santo). -/
def inBoundingBox (lat lon : ℚ) : Bool :=
  (-22 ≤ lat && lat ≤ -17) && (-42 ≤ lon && lon ≤ -38)

/-- The attempt loop `for attempt in range(max_retries)` of
`geocode_with_retry` for a single provider, lines 503-536, run over the
list of remaining attempt numbers.  Returns the in-bounds coordinate found
(if any) together with the log of calls and sleeps.  An out-of-bounds
location `continue`s to the next attempt without sleeping (line 523 skips
the delay at line 527); a falsy location or a retryable error sleeps
`2 ^ attempt` when attempts remain; any other exception abandons the
provider (`break`, line 536). -/
def runAttempts (g : Geocoder) (maxRetries : Nat) :
    List Nat → Option (ℚ × ℚ) × CallLog
  | [] => (none, CallLog.nil)
  | a :: rest =>
    match g.behavior a with
    | .found lat lon =>
      if inBoundingBox lat lon then
        (some (lat, lon), ⟨[(g.name, a)], []⟩)
      else
        let p := runAttempts g maxRetries rest
        (p.1, ⟨(g.name, a) :: p.2.attempts, p.2.sleeps⟩)
    | .notFound =>
      let sl := if a < maxRetries - 1 then [2 ^ a] else []
      let p := runAttempts g maxRetries rest
      (p.1, ⟨(g.name, a) :: p.2.attempts, sl ++ p.2.sleeps⟩)
    | .geoErr =>
      let sl := if a < maxRetries - 1 then [2 ^ a] else []
      let p := runAttempts g maxRetries rest
      (p.1, ⟨(g.name, a) :: p.2.attempts, sl ++ p.2.sleeps⟩)
    | .otherErr => (none, ⟨[(g.name, a)], []⟩)

/-- The provider loop `for geocoder_name, geocoder in geocoders` of
`geocode_with_retry`, lines 502-536: tries each provider in configuration
order with `runAttempts`; the first in-bounds success wins. -/
def runGeocoders (maxRetries : Nat) :
    List Geocoder → Option (ℚ × ℚ × String) × CallLog
  | [] => (none, CallLog.nil)
  | g :: gs =>
    let p := runAttempts g maxRetries (List.range maxRetries)
    match p.1 with
    | some c => (some (c.1, c.2, g.name), p.2)
    | none =>
      let q := runGeocoders maxRetries gs
      (q.1, ⟨p.2.attempts ++ q.2.attempts, p.2.sleeps ++ q.2.sleeps⟩)

/-- Embedding of `geocode_with_retry(address, geocoders, max_retries)`,
lines 480-540.  The address argument is `Option String`: `none` stands for
a `None`/`NaN` input (`pd.isna(address)`), and the empty string is the only
falsy string (`not address`).  Returns the result 4-tuple, the cache after
the call (the source writes a successful coordinate through to the cache at
line 516 before returning), and the call log. -/
def geocodeWithRetry (address : Option String) (geocoders : List Geocoder)
    (cache : Cache) (maxRetries : Nat := 3) : RetryResult × Cache × CallLog :=
  match address with
  | none => (⟨none, none, "Endereço vazio", "Falhou"⟩, cache, CallLog.nil)
  | some s =>
    if s = "" then (⟨none, none, "Endereço vazio", "Falhou"⟩, cache, CallLog.nil)
    else
      let key := getCacheKey s
      match cacheLookup cache key with
      | some e => (⟨some e.lat, some e.lon, e.provider, "Cache"⟩, cache, CallLog.nil)
      | none =>
        let p := runGeocoders maxRetries geocoders
        match p.1 with
        | some c =>
          (⟨some c.1, some c.2.1, c.2.2, "Sucesso"⟩,
            (key, ⟨c.1, c.2.1, c.2.2⟩) :: cache, p.2)
        | none =>
          (⟨none, none, "Múltiplos provedores", "Falhou"⟩, cache, p.2)

/-- Removal of every occurrence of a character (`str.replace(c, '')` with a
one-character pattern), written on the character list so that it reduces in
the kernel. -/
def removeAllChar (c : Char) (s : String) : String :=
  ⟨s.data.filter (fun d => d ≠ c)⟩

/-- Stripping of leading and trailing whitespace (`str.strip()`), written on
the character list so that it reduces in the kernel. -/
def stripStr (s : String) : String :=
  ⟨((s.data.dropWhile Char.isWhitespace).reverse.dropWhile
      Char.isWhitespace).reverse⟩

/-- Cleaning of a CEP string at line 552:
`str(cep).replace('-', '').replace('.', '').strip()`. -/
def cleanCep (s : String) : String :=
  stripStr (removeAllChar '.' (removeAllChar '-' s))

/-- Embedding of `geocode_cep_robust(cep, geocoders)`, lines 546-567.  The
input is `Option String`: `none` stands for a `NaN` cell (`pd.isna(cep)`).
A blank CEP yields `"Sem CEP"`; a cleaned CEP whose length differs from 8
yields `"CEP inválido"`; otherwise the formatted CEP is resolved through
`geocodeWithRetry` with the default `max_retries = 3`. -/
def geocodeCepRobust (cep : Option String) (geocoders : List Geocoder)
    (cache : Cache) : RetryResult × Cache × CallLog :=
  match cep with
  | none => (⟨none, none, "CEP", "Sem CEP"⟩, cache, CallLog.nil)
  | some s =>
    if stripStr s = "" then (⟨none, none, "CEP", "Sem CEP"⟩, cache, CallLog.nil)
    else
      let cepClean := cleanCep s
      if cepClean.length ≠ 8 then
        (⟨none, none, "CEP", "CEP inválido"⟩, cache, CallLog.nil)
      else
        let cepFormatted : String :=
          ⟨cepClean.data.take 5⟩ ++ "-" ++ ⟨cepClean.data.drop 5⟩
        let cepAddress := cepFormatted ++ ", Espírito Santo, Brasil"
        let pr := geocodeWithRetry (some cepAddress) geocoders cache
        if pr.1.lat.isSome then
          (⟨pr.1.lat, pr.1.lon, "CEP-" ++ pr.1.method, pr.1.status⟩, pr.2.1, pr.2.2)
        else
          (⟨none, none, "CEP", "Falhou"⟩, pr.2.1, pr.2.2)

/-!
## Batch controller (`geocode_batch_with_control`, lines 189-414)

The per-record loop is embedded as a structurally recursive function over
the list of input records.  Collaborator behaviour is made explicit:

* the control state read from `st.session_state['processing_state']` at the
  top of each iteration is given by a schedule, one `Ctl` observation per
  iteration: `go` (state `running`), `stop` (state `stopped`, line 246),
  `pauseResume` (state `paused`, then the poll loop at line 252 ends with a
  non-stopped state) and `pauseStop` (paused, then stopped, line 255);
* the calls `geocode_address_robust(...)` (line 289, inside the
  `try`/`except` of lines 288-339) and `geocode_cep_robust(...)` (lines 310
  and 347) are given by resolver oracles indexed by the record position.
  The address resolver returns `none` when the call raises an exception
  (the case handled by the `except` at line 335); `geocode_cep_robust`
  catches every exception internally and therefore always returns a tuple.

Two Python-level failure modes are part of the embedding because they
decide control flow:

* line 284 formats `f"Endereço: {endereco[:50]}..."` before the `try`
  block; when the `endereco_completo` cell holds `None`/`NaN` (a `Cell.na`)
  this slicing raises `TypeError` and the run aborts;
* line 388 evaluates `if status != "Cache":`; the local variable `status`
  is only bound by the tuple unpackings at lines 289, 310 and 347, so when
  no such unpacking has happened yet in the run (e.g. the very first
  record's resolution raised), reading it raises `UnboundLocalError` (a
  `NameError`) and the run aborts.

An abort leaves the function before lines 391-393, so the session state
keeps its last value; a normal exit (loop exhausted or `break`) always
executes line 392, which sets the state to `completed`.
-/

/-- A pandas cell of the `endereco_completo` column: `na` stands for
`None`/`NaN` (for which `pd.notna` is false and slicing raises), `str` for
a string value (possibly empty; `pd.notna` is true for every string). -/
inductive Cell where
  | na
  | str (s : String)
deriving DecidableEq

/-- `pd.notna` on an `endereco_completo` cell. -/
def notna : Cell → Bool
  | .na => false
  | .str _ => true

/-- One input record of the dataset: the `endereco_completo` cell and the
value of the first CEP-like column (`none` for a `NaN` cell); the latter is
only consulted when the dataset has such a column. -/
structure Row where
  endereco : Cell
  cep : Option String
deriving DecidableEq

/-- The four result columns written back into a record's slot
(`latitude`, `longitude`, `geocoding_method`, `geocoding_status`); all are
initialised to `None` at lines 206-210. -/
structure RowOut where
  lat : Option ℚ
  lon : Option ℚ
  method : Option String
  status : Option String
deriving DecidableEq

/-- An untouched record slot (all four result columns still `None`). -/
def emptyOut : RowOut := ⟨none, none, none, none⟩

/-- The control states of `PROCESSING_STATES`. -/
inductive PState where
  | idle
  | running
  | paused
  | stopped
  | completed
deriving DecidableEq

/-- Control observation at the top of one loop iteration (lines 243-259). -/
inductive Ctl where
  | go
  | stop
  | pauseResume
  | pauseStop
deriving DecidableEq

/-- Whether the observation makes the loop `break` (a Stop seen directly at
line 246, or a Stop seen at line 255 after the pause poll loop ended). -/
def Ctl.isStop : Ctl → Bool
  | .stop => true
  | .pauseStop => true
  | _ => false

/-- A Python exception escaping the batch loop. -/
inductive PyErr where
  | typeError
  | nameError
deriving DecidableEq

/-- A checkpoint written by `save_partial_progress` (lines 133-145): a copy
of the dataset's result columns at save time, the processed count and the
total count (the timestamp is not modelled). -/
structure Checkpoint where
  snapshot : List RowOut
  processedCount : Nat
  totalCount : Nat
deriving DecidableEq

/-- External collaborators of one batch run: the control schedule and the
two resolver oracles (see the section comment above). -/
structure BatchCfg where
  schedule : Nat → Ctl
  addrResolve : Nat → String → Option RetryResult
  cepResolve : Nat → Option String → RetryResult

/-- State of one batch run: the result slots of the records processed so
far (in order), the session control state, the running counters of lines
221-224, `st.session_state['processed_index']`, the trace of checkpoints
written so far together with the session's single retained checkpoint slot
`st.session_state['partial_results']`, the Python local `status`
(`none` = still unbound), the number of address / CEP resolver calls made,
and the exception that aborted the run, if any. -/
structure BatchSt where
  outs : List RowOut := []
  state : PState := .running
  successCount : Nat := 0
  cepCount : Nat := 0
  cacheCount : Nat := 0
  errorCount : Nat := 0
  processedIndex : Nat := 0
  checkpoints : List Checkpoint := []
  lastCheckpoint : Option Checkpoint := none
  statusVar : Option String := none
  addrCalls : Nat := 0
  cepCalls : Nat := 0
  aborted : Option PyErr := none

/-- Checkpoint step at the top of an iteration (lines 277-280): when
`(i + 1) % 25 == 0`, a snapshot of the whole dataset (the `i` processed
slots followed by the untouched rest) is saved with processed count
`i + 1`, and `processed_index` is updated; `save_partial_progress`
overwrites the single session slot, so the new checkpoint supersedes the
previous one. -/
def checkpointStep (total i : Nat) (st : BatchSt) : BatchSt :=
  if (i + 1) % 25 == 0 then
    let cp : Checkpoint :=
      ⟨st.outs ++ List.replicate (total - i) emptyOut, i + 1, total⟩
    { st with checkpoints := st.checkpoints ++ [cp],
              lastCheckpoint := some cp,
              processedIndex := i + 1 }
  else st

/-- Effect of processing one record: the result slot written for it, the
counter increments, the resolver calls made, and the value (if any) newly
bound to the Python local `status` by a tuple unpacking. -/
structure StepOut where
  out : RowOut
  dSuccess : Nat := 0
  dCep : Nat := 0
  dCache : Nat := 0
  dError : Nat := 0
  dAddrCalls : Nat := 0
  dCepCalls : Nat := 0
  statusSet : Option String := none

/-- CEP fallback inside the address branch (lines 304-333) and the whole
CEP-only branch (lines 341-370): with a CEP-like column present the record
is resolved by `geocode_cep_robust`; otherwise the slot is written as
`"Sem CEP"`/`"Falhou"` without any resolver call (and without binding the
local `status`). -/
def resolveCepSide (cfg : BatchCfg) (hasCepCol : Bool) (i : Nat) (r : Row) :
    StepOut :=
  if hasCepCol then
    let u := cfg.cepResolve i r.cep
    if u.lat.isSome then
      if u.status = "Cache" then
        { out := ⟨u.lat, u.lon, some u.method, some u.status⟩,
          dCache := 1, dCepCalls := 1, statusSet := some u.status }
      else
        { out := ⟨u.lat, u.lon, some u.method, some u.status⟩,
          dCep := 1, dCepCalls := 1, statusSet := some u.status }
    else
      { out := ⟨none, none, some u.method, some u.status⟩,
        dError := 1, dCepCalls := 1, statusSet := some u.status }
  else
    { out := ⟨none, none, some "Sem CEP", some "Falhou"⟩, dError := 1 }

/-- The address branch of the loop body (lines 287-339): the record is
resolved by `geocode_address_robust`; an exception is caught by the
`except` at line 335 and recorded as `"Erro"`/`"Erro"` (without binding the
local `status`); a coordinate is written back with its counter; a failed
resolution falls back to the CEP side. -/
def resolveAddrRecord (cfg : BatchCfg) (hasCepCol : Bool) (i : Nat)
    (r : Row) (s : String) : StepOut :=
  match cfg.addrResolve i s with
  | none =>
    { out := ⟨none, none, some "Erro", some "Erro"⟩,
      dError := 1, dAddrCalls := 1 }
  | some t =>
    if t.lat.isSome then
      if t.status = "Cache" then
        { out := ⟨t.lat, t.lon, some t.method, some t.status⟩,
          dCache := 1, dAddrCalls := 1, statusSet := some t.status }
      else
        { out := ⟨t.lat, t.lon, some t.method, some t.status⟩,
          dSuccess := 1, dAddrCalls := 1, statusSet := some t.status }
    else
      let side := resolveCepSide cfg hasCepCol i r
      { side with dAddrCalls := side.dAddrCalls + 1,
                  statusSet := match side.statusSet with
                               | some v => some v
                               | none => some t.status }

/-- Application of one record's effect to the run state. -/
def applyStep (step : StepOut) (st : BatchSt) : BatchSt :=
  { st with outs := st.outs ++ [step.out],
            successCount := st.successCount + step.dSuccess,
            cepCount := st.cepCount + step.dCep,
            cacheCount := st.cacheCount + step.dCache,
            errorCount := st.errorCount + step.dError,
            addrCalls := st.addrCalls + step.dAddrCalls,
            cepCalls := st.cepCalls + step.dCepCalls,
            statusVar := match step.statusSet with
                         | some v => some v
                         | none => st.statusVar }

/-- Abort of the run by an escaped Python exception: the remaining record
slots stay untouched and lines 391-393 are never reached, so the session
state and `processed_index` keep their current values. -/
def abortRun (remaining : Nat) (e : PyErr) (st : BatchSt) : BatchSt :=
  { st with outs := st.outs ++ List.replicate remaining emptyOut,
            aborted := some e }

/-- Normal exit of the loop, lines 391-393: whether the loop exhausted the
dataset or was left by a `break`, the state is set to `completed` and
`processed_index` to the dataset length; untouched slots stay `None`. -/
def finishRun (remaining total : Nat) (st : BatchSt) : BatchSt :=
  { st with outs := st.outs ++ List.replicate remaining emptyOut,
            state := .completed,
            processedIndex := total }

/-- The per-record loop of `geocode_batch_with_control` (lines 242-389)
over the remaining records, where `i` is the index of the next record and
`total` the dataset length.  See the section comment for the embedded
control flow.  The `pd.notna` test at line 287 is necessarily true in the
`Cell.str` case (the only `pd.notna`-false cells are the `None`/`NaN` ones,
for which the slicing at line 284 has already raised), so the CEP-only
branch of lines 341-370 — whose body is `resolveCepSide` without an
address call — is unreachable and the `.str` case goes straight to the
address branch. -/
def batchLoop (cfg : BatchCfg) (hasCepCol : Bool) (total : Nat) :
    Nat → List Row → BatchSt → BatchSt
  | _, [], st => finishRun 0 total st
  | i, r :: rs, st =>
    if (cfg.schedule i).isStop then
      finishRun (rs.length + 1) total { st with state := .stopped }
    else
      let st1 := checkpointStep total i st
      match r.endereco with
      | .na => abortRun (rs.length + 1) .typeError st1
      | .str s =>
        let st2 := applyStep (resolveAddrRecord cfg hasCepCol i r s) st1
        match st2.statusVar with
        | none => abortRun rs.length .nameError st2
        | some _ => batchLoop cfg hasCepCol total (i + 1) rs st2

/-- Embedding of `geocode_batch_with_control(df, geocoders)` for a fresh
run (`processed_index == 0`): the result columns start as `None`
(lines 206-210), the state is set to `running` (line 235) and the loop is
entered at index 0. -/
def geocodeBatchWithControl (cfg : BatchCfg) (hasCepCol : Bool)
    (rows : List Row) : BatchSt :=
  batchLoop cfg hasCepCol rows.length 0 rows {}

/-- Shape of every checkpoint the batch loop writes: the stored cursor is
a positive multiple of 25 and at most the dataset length; the stored total
is the dataset length; the snapshot covers the whole dataset;
the `cursor - 1` records before the one about to be processed are filled
in, and the record the cursor counts is still untouched (the snapshot is
taken at the top of the iteration, before the 25th record is processed). -/
def cadenceCheckpoint (total : Nat) (cp : Checkpoint) : Prop :=
  cp.processedCount % 25 = 0 ∧ 0 < cp.processedCount ∧
  cp.processedCount ≤ total ∧ cp.totalCount = total ∧
  cp.snapshot.length = total ∧
  (∀ j, j < cp.processedCount - 1 →
    ∃ o, cp.snapshot.get? j = some o ∧ o.status.isSome = true) ∧
  cp.snapshot.get? (cp.processedCount - 1) = some emptyOut

/-!
## Lemmas about the retry/backoff controller
-/

/-- A coordinate coming out of the attempt loop passed the bounding-box
check of line 514. -/
theorem runAttempts_fst_inBox (g : Geocoder) (mr : Nat) :
    ∀ (l : List Nat) (c : ℚ × ℚ),
      (runAttempts g mr l).1 = some c → inBoundingBox c.1 c.2 = true := by
  intro l
  induction l with
  | nil => intro c h; simp [runAttempts, CallLog.nil] at h
  | cons a rest ih =>
    intro c h
    simp only [runAttempts] at h
    cases hb : g.behavior a <;> rw [hb] at h
    case found lat lon =>
      by_cases hbox : inBoundingBox lat lon
      · simp only [hbox, if_true] at h
        simp only [Option.some.injEq] at h
        rw [← h]
        exact hbox
      · simp only [hbox, Bool.false_eq_true, if_false] at h
        exact ih c h
    case notFound => exact ih c h
    case geoErr => exact ih c h
    case otherErr => simp at h

/-- A coordinate coming out of the provider loop passed the bounding-box
check. -/
theorem runGeocoders_fst_inBox (mr : Nat) :
    ∀ (gs : List Geocoder) (c : ℚ × ℚ × String),
      (runGeocoders mr gs).1 = some c → inBoundingBox c.1 c.2.1 = true := by
  intro gs
  induction gs with
  | nil => intro c h; simp [runGeocoders, CallLog.nil] at h
  | cons g gs ih =>
    intro c h
    simp only [runGeocoders] at h
    cases hp : (runAttempts g mr (List.range mr)).1 <;> rw [hp] at h
    · exact ih c h
    · next c0 =>
      simp only [Option.some.injEq] at h
      have hbox := runAttempts_fst_inBox g mr (List.range mr) c0 hp
      rw [← h]
      exact hbox

/-- With a provider that only throws retryable errors, the attempt loop
makes every attempt, finds nothing, and logs the attempts in order. -/
theorem runAttempts_all_geoErr (g : Geocoder) (mr : Nat)
    (hb : ∀ a, g.behavior a = .geoErr) :
    ∀ l : List Nat,
      (runAttempts g mr l).1 = none ∧
      (runAttempts g mr l).2.attempts = l.map fun a => (g.name, a) := by
  intro l
  induction l with
  | nil => simp [runAttempts, CallLog.nil]
  | cons a rest ih =>
    simp only [runAttempts, hb a, List.map_cons]
    exact ⟨ih.1, by rw [ih.2]⟩

/-- With providers that only throw retryable errors, the provider loop
fails and its call log is the concatenation, in configuration order, of
every attempt of every provider. -/
theorem runGeocoders_all_geoErr (mr : Nat) :
    ∀ gs : List Geocoder, (∀ g ∈ gs, ∀ a, g.behavior a = .geoErr) →
      (runGeocoders mr gs).1 = none ∧
      (runGeocoders mr gs).2.attempts
        = (gs.map fun g => (List.range mr).map fun a => (g.name, a)).flatten := by
  intro gs
  induction gs with
  | nil => intro _; simp [runGeocoders, CallLog.nil]
  | cons g gs ih =>
    intro hb
    have hg := runAttempts_all_geoErr g mr (hb g (List.mem_cons_self g gs)) (List.range mr)
    have hrest := ih fun g' hg' a => hb g' (List.mem_cons_of_mem g hg') a
    simp only [runGeocoders, hg.1, List.map_cons, List.flatten_cons]
    exact ⟨hrest.1, by rw [hg.2, hrest.2]⟩

/-- The length of the expected attempt log is `providers × maxRetries`. -/
theorem expected_attempts_length (mr : Nat) :
    ∀ gs : List Geocoder,
      ((gs.map fun g => (List.range mr).map fun a => (g.name, a)).flatten).length
        = gs.length * mr := by
  intro gs
  induction gs with
  | nil => simp
  | cons g gs ih =>
    rw [List.map_cons, List.flatten_cons, List.length_append, ih,
      List.length_map, List.length_range, List.length_cons]
    ring

/-!
## Claims about the retry/backoff controller
-/

/-- C2.  For every address query and every provider behaviour, whenever
`geocode_with_retry` returns a result with status `"Sucesso"`, the returned
latitude lies in `[-22, -17]` and the returned longitude in `[-42, -38]`;
a provider coordinate outside this bounding box is never returned with
status `"Sucesso"`. -/
theorem c2_success_within_bounding_box (address : Option String)
    (gs : List Geocoder) (cache : Cache) (mr : Nat)
    (h : (geocodeWithRetry address gs cache mr).1.status = "Sucesso") :
    ∃ la lo, (geocodeWithRetry address gs cache mr).1.lat = some la ∧
      (geocodeWithRetry address gs cache mr).1.lon = some lo ∧
      -22 ≤ la ∧ la ≤ -17 ∧ -42 ≤ lo ∧ lo ≤ -38 := by
  rcases address with _ | s
  · simp [geocodeWithRetry] at h
  · by_cases hs : s = ""
    · simp [geocodeWithRetry, hs] at h
    · rcases hc : cacheLookup cache (getCacheKey s) with _ | e
      · rcases hp : (runGeocoders mr gs).1 with _ | c
        · simp [geocodeWithRetry, hs, hc, hp] at h
        · have hbox := runGeocoders_fst_inBox mr gs c hp
          simp only [inBoundingBox, Bool.and_eq_true, decide_eq_true_eq] at hbox
          refine ⟨c.1, c.2.1, ?_, ?_, hbox.1.1, hbox.1.2, hbox.2.1, hbox.2.2⟩ <;>
            simp [geocodeWithRetry, hs, hc, hp]
      · simp [geocodeWithRetry, hs, hc] at h

/-- Witness for C2: a provider returning an in-bounds coordinate yields
status `"Sucesso"`, and the theorem then bounds the coordinate. -/
theorem c2_witness :
    (geocodeWithRetry (some "Vitória")
        [⟨"Nominatim", fun _ => .found (-20) (-40)⟩] [] 3).1.status
      = "Sucesso" ∧
    (∃ la lo,
      (geocodeWithRetry (some "Vitória")
          [⟨"Nominatim", fun _ => .found (-20) (-40)⟩] [] 3).1.lat = some la ∧
      (geocodeWithRetry (some "Vitória")
          [⟨"Nominatim", fun _ => .found (-20) (-40)⟩] [] 3).1.lon = some lo ∧
      -22 ≤ la ∧ la ≤ -17 ∧ -42 ≤ lo ∧ lo ≤ -38) :=
  ⟨by decide, c2_success_within_bounding_box (some "Vitória")
    [⟨"Nominatim", fun _ => .found (-20) (-40)⟩] [] 3 (by decide)⟩

/-- C3, counterexample.  The claim quantifies over every query string whose
cache key is present in the cache; the empty query string falsifies it:
even with its key in the cache, the emptiness check at line 492 fires
before the cache lookup at line 497 and the call returns
`"Endereço vazio"`/`"Falhou"`, not the cached coordinate with status
`"Cache"`. -/
theorem c3_counterexample :
    cacheLookup [(getCacheKey "", ⟨-20, -40, "Nominatim"⟩)] (getCacheKey "")
      = some ⟨-20, -40, "Nominatim"⟩ ∧
    (geocodeWithRetry (some "") []
        [(getCacheKey "", ⟨-20, -40, "Nominatim"⟩)] 3).1
      = ⟨none, none, "Endereço vazio", "Falhou"⟩ ∧
    (geocodeWithRetry (some "") []
        [(getCacheKey "", ⟨-20, -40, "Nominatim"⟩)] 3).1.status ≠ "Cache" := by
  refine ⟨by decide, by decide, by decide⟩

/-- C3, amended.  For every non-empty query string whose cache key is
present in the cache, `geocode_with_retry` returns the cached latitude,
longitude and provider name with status `"Cache"`, leaves the cache
unchanged, and performs zero provider calls and zero backoff delays. -/
theorem c3_cache_hit_returns_cached (s : String) (gs : List Geocoder)
    (cache : Cache) (mr : Nat) (e : CacheEntry) (hs : s ≠ "")
    (hc : cacheLookup cache (getCacheKey s) = some e) :
    geocodeWithRetry (some s) gs cache mr
      = (⟨some e.lat, some e.lon, e.provider, "Cache"⟩, cache, CallLog.nil) := by
  simp [geocodeWithRetry, hs, hc]

/-- Witness for C3 (amended): a concrete cached query returns the cached
coordinate with no provider calls and no sleeps. -/
theorem c3_witness :
    geocodeWithRetry (some "UFES") [⟨"ArcGIS", fun _ => .geoErr⟩]
        [("ufes", ⟨-20, -40, "ArcGIS"⟩)] 3
      = (⟨some (-20), some (-40), "ArcGIS", "Cache"⟩,
          [("ufes", ⟨-20, -40, "ArcGIS"⟩)], CallLog.nil) :=
  c3_cache_hit_returns_cached "UFES" [⟨"ArcGIS", fun _ => .geoErr⟩]
    [("ufes", ⟨-20, -40, "ArcGIS"⟩)] 3 ⟨-20, -40, "ArcGIS"⟩
    (by decide) (by decide)

/-- C5.  For a non-empty, non-cached query where every configured provider
throws a retryable error on every attempt, `geocode_with_retry` makes
exactly `maxRetries` attempts against each provider in configuration order
(total attempts = providers × maxRetries) and returns no coordinate, with
the `"Múltiplos provedores"`/`"Falhou"` classification. -/
theorem c5_all_providers_fail_exhausts_attempts (s : String)
    (gs : List Geocoder) (cache : Cache) (mr : Nat) (hs : s ≠ "")
    (hc : cacheLookup cache (getCacheKey s) = none)
    (hb : ∀ g ∈ gs, ∀ a, g.behavior a = .geoErr) :
    (geocodeWithRetry (some s) gs cache mr).1
      = ⟨none, none, "Múltiplos provedores", "Falhou"⟩ ∧
    (geocodeWithRetry (some s) gs cache mr).2.2.attempts
      = (gs.map fun g => (List.range mr).map fun a => (g.name, a)).flatten ∧
    (geocodeWithRetry (some s) gs cache mr).2.2.attempts.length
      = gs.length * mr := by
  have hrun := runGeocoders_all_geoErr mr gs hb
  have h2 : (geocodeWithRetry (some s) gs cache mr).2.2.attempts
      = (gs.map fun g => (List.range mr).map fun a => (g.name, a)).flatten := by
    simp [geocodeWithRetry, hs, hc, hrun.1, hrun.2]
  refine ⟨?_, h2, ?_⟩
  · simp [geocodeWithRetry, hs, hc, hrun.1]
  · rw [h2, expected_attempts_length]

/-- Witness for C5: two always-failing providers with three retries yield
six attempts and the failure classification. -/
theorem c5_witness :
    (geocodeWithRetry (some "x")
        [⟨"A", fun _ => .geoErr⟩, ⟨"B", fun _ => .geoErr⟩] [] 3).1
      = ⟨none, none, "Múltiplos provedores", "Falhou"⟩ ∧
    (geocodeWithRetry (some "x")
        [⟨"A", fun _ => .geoErr⟩, ⟨"B", fun _ => .geoErr⟩] [] 3).2.2.attempts.length
      = 6 := by
  have h := c5_all_providers_fail_exhausts_attempts "x"
    [⟨"A", fun _ => .geoErr⟩, ⟨"B", fun _ => .geoErr⟩] [] 3
    (by decide) (by decide)
    (by intro g hg a; fin_cases hg <;> rfl)
  exact ⟨h.1, h.2.2⟩

/-- C6, counterexample.  The claim states that every postal-code input
whose cleaned form does not consist of exactly 8 digits short-circuits to
`"CEP inválido"` with zero provider calls; the input `"ABCDEFGH"` (8
non-digit characters) falsifies it: the source only checks the cleaned
length at line 553, so this input reaches the providers (3 attempts here)
and comes back `"Falhou"`, not `"CEP inválido"`. -/
theorem c6_counterexample :
    ((cleanCep "ABCDEFGH").data.filter Char.isDigit).length ≠ 8 ∧
    (geocodeCepRobust (some "ABCDEFGH") [⟨"A", fun _ => .geoErr⟩] []).1
      = ⟨none, none, "CEP", "Falhou"⟩ ∧
    (geocodeCepRobust (some "ABCDEFGH")
        [⟨"A", fun _ => .geoErr⟩] []).2.2.attempts.length = 3 := by
  refine ⟨by decide, by decide, by decide⟩

/-- C6, amended.  For every postal-code input that is not blank (not `NaN`
and not whitespace-only) and whose form after stripping separators does not
have exactly 8 characters (the source checks only the length, not that the
characters are digits), `geocode_cep_robust` returns the
`"CEP inválido"` classification with no coordinate and performs zero
provider calls. -/
theorem c6_invalid_length_short_circuits (s : String) (gs : List Geocoder)
    (cache : Cache) (h1 : stripStr s ≠ "") (h2 : (cleanCep s).length ≠ 8) :
    geocodeCepRobust (some s) gs cache
      = (⟨none, none, "CEP", "CEP inválido"⟩, cache, CallLog.nil) := by
  simp [geocodeCepRobust, h1, h2]

/-- Witness for C6 (amended): a three-character CEP is rejected without any
provider call. -/
theorem c6_witness :
    geocodeCepRobust (some "123") [⟨"A", fun _ => .geoErr⟩] []
      = (⟨none, none, "CEP", "CEP inválido"⟩, [], CallLog.nil) :=
  c6_invalid_length_short_circuits "123" [⟨"A", fun _ => .geoErr⟩] []
    (by decide) (by decide)

/-- C9.  Every result returned by `geocode_with_retry` and by
`geocode_cep_robust`, on every input, cache and provider behaviour, has
latitude and longitude either both present or both absent. -/
theorem c9_lat_lon_both_or_absent :
    (∀ (address : Option String) (gs : List Geocoder) (cache : Cache) (mr : Nat),
      (geocodeWithRetry address gs cache mr).1.lat.isSome
        = (geocodeWithRetry address gs cache mr).1.lon.isSome) ∧
    (∀ (cep : Option String) (gs : List Geocoder) (cache : Cache),
      (geocodeCepRobust cep gs cache).1.lat.isSome
        = (geocodeCepRobust cep gs cache).1.lon.isSome) := by
  have hretry : ∀ (address : Option String) (gs : List Geocoder) (cache : Cache)
      (mr : Nat), (geocodeWithRetry address gs cache mr).1.lat.isSome
        = (geocodeWithRetry address gs cache mr).1.lon.isSome := by
    intro address gs cache mr
    rcases address with _ | s
    · simp [geocodeWithRetry]
    · by_cases hs : s = ""
      · simp [geocodeWithRetry, hs]
      · rcases hc : cacheLookup cache (getCacheKey s) with _ | e
        · rcases hp : (runGeocoders mr gs).1 with _ | c <;>
            simp [geocodeWithRetry, hs, hc, hp]
        · simp [geocodeWithRetry, hs, hc]
  refine ⟨hretry, ?_⟩
  intro cep gs cache
  rcases cep with _ | s
  · simp [geocodeCepRobust]
  · by_cases h1 : stripStr s = ""
    · simp [geocodeCepRobust, h1]
    · by_cases h2 : (cleanCep s).length = 8
      · have hr := hretry (some (⟨(cleanCep s).data.take 5⟩ ++ "-"
          ++ ⟨(cleanCep s).data.drop 5⟩ ++ ", Espírito Santo, Brasil")) gs cache 3
        by_cases hlat : (geocodeWithRetry (some (⟨(cleanCep s).data.take 5⟩ ++ "-"
            ++ ⟨(cleanCep s).data.drop 5⟩ ++ ", Espírito Santo, Brasil"))
            gs cache 3).1.lat.isSome
        · simp [geocodeCepRobust, h1, h2, hlat, ← hr]
        · simp [geocodeCepRobust, h1, h2, hlat]
      · simp [geocodeCepRobust, h1, h2]

/-- C10.  Cache hits bypass the bounding-box validation: when the cache
maps a (non-empty) query's key to a coordinate outside the configured
bounding box, `geocode_with_retry` returns that out-of-bounds coordinate
with status `"Cache"`; only freshly obtained provider responses are checked
against the box (the check guards only the `"Sucesso"` return). -/
theorem c10_cache_hit_bypasses_bounding_box (s : String) (gs : List Geocoder)
    (cache : Cache) (mr : Nat) (e : CacheEntry) (hs : s ≠ "")
    (hc : cacheLookup cache (getCacheKey s) = some e)
    (hout : inBoundingBox e.lat e.lon = false) :
    (geocodeWithRetry (some s) gs cache mr).1
      = ⟨some e.lat, some e.lon, e.provider, "Cache"⟩ ∧
    inBoundingBox e.lat e.lon = false := by
  refine ⟨?_, hout⟩
  simp [geocodeWithRetry, hs, hc]

/-- Witness for C10: a cached coordinate at the origin (far outside the
Espírito Santo box) is returned as-is with status `"Cache"`. -/
theorem c10_witness :
    (geocodeWithRetry (some "Praça Zero") [⟨"A", fun _ => .geoErr⟩]
        [(getCacheKey "Praça Zero", ⟨0, 0, "Photon"⟩)] 3).1
      = ⟨some 0, some 0, "Photon", "Cache"⟩ ∧
    inBoundingBox 0 0 = false :=
  c10_cache_hit_bypasses_bounding_box "Praça Zero" [⟨"A", fun _ => .geoErr⟩]
    [(getCacheKey "Praça Zero", ⟨0, 0, "Photon"⟩)] 3 ⟨0, 0, "Photon"⟩
    (by decide) (by decide) (by decide)

/-!
## Lemmas about the batch controller
-/

/-- Every result slot written by the CEP side carries a status. -/
theorem resolveCepSide_status_isSome (cfg : BatchCfg) (hasCepCol : Bool)
    (i : Nat) (r : Row) :
    (resolveCepSide cfg hasCepCol i r).out.status.isSome = true := by
  unfold resolveCepSide
  dsimp only
  repeat' split
  all_goals rfl

/-- Every result slot written by the address branch carries a status. -/
theorem resolveAddrRecord_status_isSome (cfg : BatchCfg) (hasCepCol : Bool)
    (i : Nat) (r : Row) (s : String) :
    (resolveAddrRecord cfg hasCepCol i r s).out.status.isSome = true := by
  unfold resolveAddrRecord
  rcases h : cfg.addrResolve i s with _ | t
  · rfl
  · dsimp only
    by_cases hl : t.lat.isSome = true
    · rw [if_pos hl]
      by_cases hs : t.status = "Cache"
      · rw [if_pos hs]; rfl
      · rw [if_neg hs]; rfl
    · rw [if_neg hl]
      dsimp only
      exact resolveCepSide_status_isSome cfg hasCepCol i r

/-- The checkpoint step preserves the result slots and the local `status`,
and maintains the checkpoint invariants: every checkpoint written so far
has the cadence shape and the session slot holds the latest one. -/
theorem checkpointStep_inv (total i : Nat) (st : BatchSt)
    (houts : st.outs.length = i) (hi : i < total)
    (hall : ∀ o ∈ st.outs, o.status.isSome = true)
    (hcps : ∀ cp ∈ st.checkpoints, cadenceCheckpoint total cp)
    (hlast : st.lastCheckpoint = st.checkpoints.getLast?) :
    (checkpointStep total i st).outs = st.outs ∧
    (checkpointStep total i st).statusVar = st.statusVar ∧
    (∀ cp ∈ (checkpointStep total i st).checkpoints, cadenceCheckpoint total cp) ∧
    (checkpointStep total i st).lastCheckpoint
      = (checkpointStep total i st).checkpoints.getLast? := by
  unfold checkpointStep
  by_cases h25 : ((i + 1) % 25 == 0) = true
  · rw [if_pos h25]
    refine ⟨rfl, rfl, ?_, ?_⟩
    · intro cp hcp
      rcases List.mem_append.mp hcp with hmem | hmem
      · exact hcps cp hmem
      · have hcp' : cp
            = ⟨st.outs ++ List.replicate (total - i) emptyOut, i + 1, total⟩ :=
          List.mem_singleton.mp hmem
        subst hcp'
        have h25' : (i + 1) % 25 = 0 := by simpa using h25
        unfold cadenceCheckpoint
        dsimp only
        refine ⟨h25', Nat.succ_pos i, by omega, rfl, ?_, ?_, ?_⟩
        · simp only [List.length_append, List.length_replicate, houts]
          omega
        · intro j hj
          have hj' : j < st.outs.length := by omega
          refine ⟨st.outs.get ⟨j, hj'⟩, ?_, hall _ (List.get_mem st.outs j hj')⟩
          rw [List.get?_append hj', List.get?_eq_get hj']
        · have hidx : i + 1 - 1 = i := by omega
          rw [hidx, List.get?_append_right (by omega), houts, Nat.sub_self]
          have ht : total - i = (total - i - 1) + 1 := by omega
          rw [ht, List.replicate_succ]
          rfl
    · exact (List.getLast?_concat _).symm
  · rw [if_neg h25]
    exact ⟨rfl, rfl, hcps, hlast⟩

/-- Any run that returns without an escaped exception ends with the state
set to `completed` (line 392 runs on every normal exit, also after a
`break`). -/
theorem batchLoop_state_completed (cfg : BatchCfg) (hasCepCol : Bool)
    (total : Nat) :
    ∀ (rows : List Row) (i : Nat) (st : BatchSt),
      (batchLoop cfg hasCepCol total i rows st).aborted = none →
      (batchLoop cfg hasCepCol total i rows st).state = .completed := by
  intro rows
  induction rows with
  | nil => intro i st _; rfl
  | cons r rs ih =>
    intro i st h
    rw [batchLoop] at h ⊢
    by_cases hstop : (cfg.schedule i).isStop = true
    · rw [if_pos hstop]
      rfl
    · rw [if_neg hstop] at h ⊢
      rcases hend : r.endereco with _ | s <;> rw [hend] at h <;>
        dsimp only at h ⊢
      · simp [abortRun] at h
      · rcases hsv : (applyStep (resolveAddrRecord cfg hasCepCol i r s)
            (checkpointStep total i st)).statusVar with _ | v <;>
          rw [hsv] at h <;> dsimp only at h ⊢
        · simp [abortRun] at h
        · exact ih (i + 1) _ h

/-- Invariant of the batch loop: every checkpoint in the trace has the
cadence shape and the session slot always holds the latest checkpoint. -/
theorem batchLoop_checkpoint_inv (cfg : BatchCfg) (hasCepCol : Bool)
    (total : Nat) :
    ∀ (rows : List Row) (i : Nat) (st : BatchSt),
      st.outs.length = i →
      i + rows.length = total →
      (∀ o ∈ st.outs, o.status.isSome = true) →
      (∀ cp ∈ st.checkpoints, cadenceCheckpoint total cp) →
      st.lastCheckpoint = st.checkpoints.getLast? →
      (∀ cp ∈ (batchLoop cfg hasCepCol total i rows st).checkpoints,
        cadenceCheckpoint total cp) ∧
      (batchLoop cfg hasCepCol total i rows st).lastCheckpoint
        = (batchLoop cfg hasCepCol total i rows st).checkpoints.getLast? := by
  intro rows
  induction rows with
  | nil => intro i st _ _ _ hcps hlast; exact ⟨hcps, hlast⟩
  | cons r rs ih =>
    intro i st houts hlen hall hcps hlast
    have hlen' : i + (rs.length + 1) = total := by simpa using hlen
    rw [batchLoop]
    by_cases hstop : (cfg.schedule i).isStop = true
    · rw [if_pos hstop]
      exact ⟨hcps, hlast⟩
    · rw [if_neg hstop]
      obtain ⟨h1, h2, h3, h4⟩ :=
        checkpointStep_inv total i st houts (by omega) hall hcps hlast
      rcases hend : r.endereco with _ | s <;> dsimp only
      · exact ⟨h3, h4⟩
      · rcases hsv : (applyStep (resolveAddrRecord cfg hasCepCol i r s)
            (checkpointStep total i st)).statusVar with _ | v <;>
          dsimp only
        · exact ⟨h3, h4⟩
        · refine ih (i + 1) _ ?_ (by omega) ?_ h3 h4
          · simp [applyStep, h1, houts]
          · intro o ho
            simp only [applyStep, h1] at ho
            rcases List.mem_append.mp ho with hmem | hmem
            · exact hall o hmem
            · rw [List.mem_singleton.mp hmem]
              exact resolveAddrRecord_status_isSome cfg hasCepCol i r s

/-!
## Claims about the batch controller
-/

/-- C1, counterexample.  A run whose control schedule delivers a Stop
command at the very first iteration ends with the record unprocessed (the
loop was interrupted, not exhausted), yet the final control state is
`completed`, not `stopped`: line 392 runs unconditionally after the
`break`, so the state is never left as `stopped`. -/
theorem c1_counterexample :
    (geocodeBatchWithControl
        ⟨fun _ => .stop, fun _ _ => some ⟨none, none, "m", "Falhou"⟩,
          fun _ _ => ⟨none, none, "CEP", "Falhou"⟩⟩ false
        [⟨.str "Rua A", none⟩]).state = .completed ∧
    (geocodeBatchWithControl
        ⟨fun _ => .stop, fun _ _ => some ⟨none, none, "m", "Falhou"⟩,
          fun _ _ => ⟨none, none, "CEP", "Falhou"⟩⟩ false
        [⟨.str "Rua A", none⟩]).state ≠ .stopped ∧
    (geocodeBatchWithControl
        ⟨fun _ => .stop, fun _ _ => some ⟨none, none, "m", "Falhou"⟩,
          fun _ _ => ⟨none, none, "CEP", "Falhou"⟩⟩ false
        [⟨.str "Rua A", none⟩]).outs = [emptyOut] :=
  ⟨by decide, by decide, by decide⟩

/-- C1, amended.  After the batch run returns normally (no escaped
exception), the control state is set to `completed` unconditionally — both
when the loop exhausted the dataset and when it was interrupted by a Stop
command (observed at the top of an iteration or while paused); the state is
never left as `stopped`. -/
theorem c1_state_always_completed (cfg : BatchCfg) (hasCepCol : Bool)
    (rows : List Row)
    (h : (geocodeBatchWithControl cfg hasCepCol rows).aborted = none) :
    (geocodeBatchWithControl cfg hasCepCol rows).state = .completed :=
  batchLoop_state_completed cfg hasCepCol rows.length rows 0 {} h

/-- Witness for C1 (amended): a run over an empty dataset returns with no
exception and ends `completed`. -/
theorem c1_witness :
    (geocodeBatchWithControl
        ⟨fun _ => .go, fun _ _ => some ⟨none, none, "m", "Falhou"⟩,
          fun _ _ => ⟨none, none, "CEP", "Falhou"⟩⟩ false []).aborted = none ∧
    (geocodeBatchWithControl
        ⟨fun _ => .go, fun _ _ => some ⟨none, none, "m", "Falhou"⟩,
          fun _ _ => ⟨none, none, "CEP", "Falhou"⟩⟩ false []).state
      = .completed :=
  ⟨by decide, c1_state_always_completed
    ⟨fun _ => .go, fun _ _ => some ⟨none, none, "m", "Falhou"⟩,
      fun _ _ => ⟨none, none, "CEP", "Falhou"⟩⟩ false [] (by decide)⟩

/-- C4.  When the very first record's address resolution raises, the
`except` at line 335 does record the slot as `"Erro"`/`"Erro"` and count
the error, but the rate-limit check at line 388 then reads the local
variable `status`, which no tuple unpacking has bound yet, so the run
aborts with an `UnboundLocalError` and the second record is never
processed — refuting "the run never aborts because of one bad record". -/
theorem c4_first_record_exception_aborts_run :
    (geocodeBatchWithControl
        ⟨fun _ => .go,
          fun i _ => if i = 0 then none else some ⟨none, none, "m", "Falhou"⟩,
          fun _ _ => ⟨none, none, "CEP", "Falhou"⟩⟩ false
        [⟨.str "Rua Alfa, Vitória", none⟩,
          ⟨.str "Rua Beta, Vitória", none⟩]).outs.get? 0
      = some ⟨none, none, some "Erro", some "Erro"⟩ ∧
    (geocodeBatchWithControl
        ⟨fun _ => .go,
          fun i _ => if i = 0 then none else some ⟨none, none, "m", "Falhou"⟩,
          fun _ _ => ⟨none, none, "CEP", "Falhou"⟩⟩ false
        [⟨.str "Rua Alfa, Vitória", none⟩,
          ⟨.str "Rua Beta, Vitória", none⟩]).errorCount = 1 ∧
    (geocodeBatchWithControl
        ⟨fun _ => .go,
          fun i _ => if i = 0 then none else some ⟨none, none, "m", "Falhou"⟩,
          fun _ _ => ⟨none, none, "CEP", "Falhou"⟩⟩ false
        [⟨.str "Rua Alfa, Vitória", none⟩,
          ⟨.str "Rua Beta, Vitória", none⟩]).aborted = some .nameError ∧
    (geocodeBatchWithControl
        ⟨fun _ => .go,
          fun i _ => if i = 0 then none else some ⟨none, none, "m", "Falhou"⟩,
          fun _ _ => ⟨none, none, "CEP", "Falhou"⟩⟩ false
        [⟨.str "Rua Alfa, Vitória", none⟩,
          ⟨.str "Rua Beta, Vitória", none⟩]).outs.get? 1 = some emptyOut :=
  ⟨by decide, by decide, by decide, by decide⟩

/-- C7, counterexample.  A two-record run interrupted by a Stop command at
the second iteration ends with the second record unprocessed, yet no
checkpoint was ever created — refuting "a checkpoint is also created when
the run is paused or stopped" (neither the loop nor the control handlers
call `save_partial_progress` on pause/stop). -/
theorem c7_counterexample :
    (geocodeBatchWithControl
        ⟨fun i => if i = 0 then .go else .stop,
          fun _ _ => some ⟨none, none, "m", "Falhou"⟩,
          fun _ _ => ⟨none, none, "CEP", "Falhou"⟩⟩ false
        [⟨.str "a", none⟩, ⟨.str "b", none⟩]).checkpoints = [] ∧
    (geocodeBatchWithControl
        ⟨fun i => if i = 0 then .go else .stop,
          fun _ _ => some ⟨none, none, "m", "Falhou"⟩,
          fun _ _ => ⟨none, none, "CEP", "Falhou"⟩⟩ false
        [⟨.str "a", none⟩, ⟨.str "b", none⟩]).lastCheckpoint = none ∧
    (geocodeBatchWithControl
        ⟨fun i => if i = 0 then .go else .stop,
          fun _ _ => some ⟨none, none, "m", "Falhou"⟩,
          fun _ _ => ⟨none, none, "CEP", "Falhou"⟩⟩ false
        [⟨.str "a", none⟩, ⟨.str "b", none⟩]).outs.get? 1 = some emptyOut :=
  ⟨by decide, by decide, by decide⟩

/-- C7, amended.  During a single run, checkpoints are created only at the
25-record cadence: every checkpoint in the trace stores a cursor that is a
positive multiple of 25, is taken at the top of the iteration that is about
to process the cursor-th record (its snapshot holds exactly `cursor - 1`
processed records and the cursor-th still untouched), and each checkpoint
supersedes the previous one — the session slot always holds the latest; no
checkpoint is created on pause or stop. -/
theorem c7_checkpoint_cadence (cfg : BatchCfg) (hasCepCol : Bool)
    (rows : List Row) :
    (∀ cp ∈ (geocodeBatchWithControl cfg hasCepCol rows).checkpoints,
      cadenceCheckpoint rows.length cp) ∧
    (geocodeBatchWithControl cfg hasCepCol rows).lastCheckpoint
      = (geocodeBatchWithControl cfg hasCepCol rows).checkpoints.getLast? :=
  batchLoop_checkpoint_inv cfg hasCepCol rows.length rows 0 {} rfl
    (by simp) (by simp) (by simp) rfl

/-- Witness for C7 (amended): in a 25-record run, the checkpoint taken at
the top of the 25th iteration stores cursor 25 over a snapshot with 24
processed records and the 25th untouched. -/
theorem c7_witness :
    cadenceCheckpoint 25
      ⟨List.replicate 24 ⟨none, none, some "Sem CEP", some "Falhou"⟩
          ++ [emptyOut], 25, 25⟩ :=
  (c7_checkpoint_cadence
      ⟨fun _ => .go, fun _ _ => some ⟨none, none, "m", "Falhou"⟩,
        fun _ _ => ⟨none, none, "CEP", "Falhou"⟩⟩ false
      (List.replicate 25 ⟨.str "Rua", none⟩)).1 _ (by decide)

/-- C8.  A record whose `endereco_completo` cell is `None`/`NaN` (no full
address) in a dataset without any CEP-like column never reaches the
`"Sem CEP"`/`"Falhou"` assignment of lines 367-368: the f-string at line
284 slices the missing address (`endereco[:50]`) and raises `TypeError`
before the branch, aborting the run with the record's slot untouched and
zero resolver calls — refuting the claimed `NoAddress`/`Failed`
classification. -/
theorem c8_no_address_record_aborts_run :
    (geocodeBatchWithControl
        ⟨fun _ => .go, fun _ _ => some ⟨none, none, "m", "Falhou"⟩,
          fun _ _ => ⟨none, none, "CEP", "Falhou"⟩⟩ false
        [⟨.na, none⟩]).aborted = some .typeError ∧
    (geocodeBatchWithControl
        ⟨fun _ => .go, fun _ _ => some ⟨none, none, "m", "Falhou"⟩,
          fun _ _ => ⟨none, none, "CEP", "Falhou"⟩⟩ false
        [⟨.na, none⟩]).outs = [emptyOut] ∧
    (geocodeBatchWithControl
        ⟨fun _ => .go, fun _ _ => some ⟨none, none, "m", "Falhou"⟩,
          fun _ _ => ⟨none, none, "CEP", "Falhou"⟩⟩ false
        [⟨.na, none⟩]).addrCalls = 0 ∧
    (geocodeBatchWithControl
        ⟨fun _ => .go, fun _ _ => some ⟨none, none, "m", "Falhou"⟩,
          fun _ _ => ⟨none, none, "CEP", "Falhou"⟩⟩ false
        [⟨.na, none⟩]).cepCalls = 0 ∧
    (geocodeBatchWithControl
        ⟨fun _ => .go, fun _ _ => some ⟨none, none, "m", "Falhou"⟩,
          fun _ _ => ⟨none, none, "CEP", "Falhou"⟩⟩ false
        [⟨.na, none⟩]).errorCount = 0 :=
  ⟨by decide, by decide, by decide, by decide, by decide⟩
